import Mathlib

/-!
Shallow embedding of `src/connection.py` (class `DBConnection`) of the
MergeTransitionConfigTool repository, together with theorems settling the
frozen claims about its specification.

The embedding models:
* the adaptive-backoff state (`_sleep_time`, `_attempts_at_sleep_time`) and
  the `_progress_sleep_time` step, parameterised by the ambient
  `threading.active_count()` value sampled at the call;
* the relational store visible to the class: the `pod` table, the
  `pendingCommands` table (with MySQL auto-increment ids and
  commit semantics) and the `executedCommands` table read by
  `get_command_response`;
* the `synchronised` decorator as a lock-state transformer, and the order of
  lock events in one iteration of `get_command_response`'s wait loop.
-/

/-- `DBConnection.SLEEP_TIME_PATIENCE`: number of sleeps before the sleep
length is increased (scaled by the number of other active threads). -/
def SLEEP_TIME_PATIENCE : Nat := 10

/-- `DBConnection.SLEEP_TIME_INCREMENT`: seconds by which the sleep time
increases. -/
def SLEEP_TIME_INCREMENT : Nat := 5

/-- `DBConnection.SLEEP_TIME_MAX`: the maximum sleep time permitted (600 s). -/
def SLEEP_TIME_MAX : Nat := 60 * 10

/-- The mutable backoff state of one `DBConnection` instance:
`self._sleep_time` and `self._attempts_at_sleep_time`. -/
structure BackoffState where
  sleep_time : Nat
  attempts_at_sleep_time : Nat
deriving DecidableEq, Repr

/-- The backoff state set up by `DBConnection.__init__`:
`self._sleep_time = 10`, `self._attempts_at_sleep_time = 0`. -/
def initBackoffState : BackoffState :=
  { sleep_time := 10, attempts_at_sleep_time := 0 }

/-- `DBConnection._progress_sleep_time`, with the value of
`threading.active_count()` at the moment of the call passed explicitly.
The method first increments `_attempts_at_sleep_time`; if `_sleep_time`
has already reached `SLEEP_TIME_MAX` it returns; otherwise, if the
incremented `_attempts_at_sleep_time` has reached
`SLEEP_TIME_PATIENCE * (active_count() - 1)`, it resets the attempt counter
and adds `SLEEP_TIME_INCREMENT` to `_sleep_time`. -/
def progress_sleep_time (active_count : Nat) (s : BackoffState) : BackoffState :=
  let s1 : BackoffState :=
    { s with attempts_at_sleep_time := s.attempts_at_sleep_time + 1 }
  if SLEEP_TIME_MAX ≤ s1.sleep_time then
    s1
  else if SLEEP_TIME_PATIENCE * (active_count - 1) ≤ s1.attempts_at_sleep_time then
    { sleep_time := s1.sleep_time + SLEEP_TIME_INCREMENT, attempts_at_sleep_time := 0 }
  else
    s1

/-- A row of the external `pod` table: maps a device serial number to the
internal key `id_pod`. -/
structure Pod where
  serialNumber : String
  id_pod : Nat
deriving DecidableEq, Repr

/-- A row of the `pendingCommands` table as inserted by
`_send_command_to_zephyr`: `(status, id_pod, id_libraryCommand,
insertionDateTime, repetition)` plus the auto-increment primary key `id`. -/
structure PendingRow where
  id : Nat
  status : Nat
  id_pod : Nat
  id_libraryCommand : Nat
  insertionDateTime : Nat
  repetition : Nat
deriving DecidableEq, Repr

/-- A row of the `executedCommands` table, written by the external executor. -/
structure ExecRow where
  id_pendingCommand : Nat
  response : String
deriving DecidableEq, Repr

/-- The store state visible through the single shared connection.
`pendingCommands` holds committed rows; `uncommittedPending` holds rows
inserted on the connection but not yet committed; `nextId` is the
auto-increment counter of `pendingCommands` (MySQL `lastrowid` source);
`now` is the store clock read by the SQL `now()`. -/
structure DBState where
  pods : List Pod
  pendingCommands : List PendingRow
  uncommittedPending : List PendingRow
  nextId : Nat
  now : Nat
deriving DecidableEq, Repr

/-- Errors surfaced by the store driver to this class.
`deviceNotFound` is the store-level constraint failure raised when the
subquery `(SELECT id_pod FROM pod WHERE serialNumber = %s)` resolves no
device, so the NOT NULL insert fails. -/
inductive DBError where
  | deviceNotFound
  | connectionLost
deriving DecidableEq, Repr

/-- Log levels used by the class (`LOG.debug`, `LOG.info`). -/
inductive LogLevel where
  | debug
  | info
deriving DecidableEq, Repr

/-- The log messages the class emits, with their interpolated data. -/
inductive LogMsg where
  | queuedCommand (commandId : Nat) (zephyrName : String)
  | sentSetPorts
deriving DecidableEq, Repr

/-- One emitted log event. -/
structure LogEvent where
  level : LogLevel
  msg : LogMsg
deriving DecidableEq, Repr

/-- Modelled from the spec: the command-ID registry (the `cmd_ids` module,
imported by `connection.py` but not among the repository files under
`src/`) defines integer identifiers of predefined commands, consumed as
opaque constants; `COMMAND_ID_SET_NEW_PORTS` names the "set the v2.5-style
ports" command. No claim depends on its concrete integer value. -/
def COMMAND_ID_SET_NEW_PORTS : Nat := 0

/-- `DBConnection._send_command_to_zephyr`: executes the
`INSERT INTO pendingCommands ... VALUES (0, (SELECT id_pod FROM pod WHERE
serialNumber = %s), %s, now(), 0)` statement, logs a debug trace, commits,
and returns `c.lastrowid`.  Returns the result (or the propagated store
error) together with the store state after the call; on an error the state
is unchanged and nothing is inserted. -/
def send_command_to_zephyr_inner (st : DBState) (commandId : Nat)
    (zephyrName : String) : Except DBError (Nat × List LogEvent) × DBState :=
  match st.pods.find? (fun p => p.serialNumber == zephyrName) with
  | none => (Except.error DBError.deviceNotFound, st)
  | some pod =>
      let row : PendingRow :=
        { id := st.nextId, status := 0, id_pod := pod.id_pod,
          id_libraryCommand := commandId, insertionDateTime := st.now,
          repetition := 0 }
      let executed : DBState :=
        { st with uncommittedPending := st.uncommittedPending ++ [row],
                  nextId := st.nextId + 1 }
      let committed : DBState :=
        { executed with
            pendingCommands := executed.pendingCommands ++ executed.uncommittedPending,
            uncommittedPending := [] }
      (Except.ok (row.id, [{ level := LogLevel.debug,
                             msg := LogMsg.queuedCommand commandId zephyrName }]),
       committed)

/-- `DBConnection.send_command_to_zephyr`: the `@synchronised` wrapper over
`_send_command_to_zephyr`; its body is exactly the inner call (the lock
itself is modelled by `synchronised_call`). -/
def send_command_to_zephyr (st : DBState) (commandId : Nat)
    (zephyrName : String) : Except DBError (Nat × List LogEvent) × DBState :=
  send_command_to_zephyr_inner st commandId zephyrName

/-- `DBConnection.set_ports`: calls
`self._send_command_to_zephyr(COMMAND_ID_SET_NEW_PORTS, zephyrName)`,
discards its result, logs `LOG.info("Sent command to set ports")` and falls
off the end of the function — so the Python return value is `None`,
modelled as `(none : Option Nat)`. -/
def set_ports (st : DBState) (zephyrName : String) :
    Except DBError (Option Nat × List LogEvent) × DBState :=
  match send_command_to_zephyr_inner st COMMAND_ID_SET_NEW_PORTS zephyrName with
  | (Except.error e, st1) => (Except.error e, st1)
  | (Except.ok (_, logs), st1) =>
      (Except.ok (none, logs ++ [{ level := LogLevel.info, msg := LogMsg.sentSetPorts }]), st1)

/-- One probe of `get_command_response`: the
`SELECT response FROM executedCommands WHERE id_pendingCommand = %s`
result list (store-iteration order), as built by `results = list(c)`. -/
def select_responses (executedCommands : List ExecRow)
    (pending_command_id : Nat) : List String :=
  (executedCommands.filter (fun r => r.id_pendingCommand == pending_command_id)).map
    (fun r => r.response)

/-- The body of one iteration of `get_command_response`'s loop after the
probe: `if len(results) != 0: return results[0][0]`, else no result yet. -/
def get_command_response_once (executedCommands : List ExecRow)
    (pending_command_id : Nat) : Option String :=
  match select_responses executedCommands pending_command_id with
  | [] => none
  | r :: _ => some r

/-- `DBConnection.get_command_response`'s wait loop, made total with fuel.
`store i` is the committed `executedCommands` table at the time of the
`i`-th probe (the external executor appends rows between probes);
`acount i` is the `threading.active_count()` value sampled by the
`_progress_sleep_time` call after the `i`-th failed probe.  On success it
returns the response, the backoff state at return time, and the list of
sleep durations performed (each failed probe advances the backoff state and
then sleeps for the new `_sleep_time`). -/
def get_command_response_from (store : Nat → List ExecRow)
    (acount : Nat → Nat) (pending_command_id : Nat) :
    Nat → BackoffState → Nat → Option (String × BackoffState × List Nat)
  | _, _, 0 => none
  | i, b, fuel + 1 =>
    match get_command_response_once (store i) pending_command_id with
    | some r => some (r, b, [])
    | none =>
        let b1 := progress_sleep_time (acount i) b
        match get_command_response_from store acount pending_command_id (i + 1) b1 fuel with
        | none => none
        | some (r, bf, sleeps) => some (r, bf, b1.sleep_time :: sleeps)

/-- A maximal sequence of calls through the `@synchronised`-wrapped
operations, each being an arbitrary enqueue request `(commandId,
zephyrName)`; the lock serialises concurrent callers into such a sequence.
Returns the pending-command ids handed back to the callers (failed calls
return no id) and the final store state. -/
def runEnqueues (st : DBState) :
    List (Nat × String) → List Nat × DBState
  | [] => ([], st)
  | (commandId, zephyrName) :: rest =>
    match send_command_to_zephyr st commandId zephyrName with
    | (Except.error _, st1) => runEnqueues st1 rest
    | (Except.ok (id, _), st1) =>
        let out := runEnqueues st1 rest
        (id :: out.1, out.2)

/-- The observable events of one failed-probe iteration of
`get_command_response` (`src/connection.py`, lines 99–116), in program
order: `self._lock.acquire()`, the `SELECT` round trip,
`self._connection.commit()`, `self._lock.release()`, the
`self._progress_sleep_time()` read-modify-write of the backoff state, and
`time.sleep(self._sleep_time)`. -/
inductive WaitEvent where
  | lockAcquire
  | selectExecuted
  | commitIssued
  | lockRelease
  | backoffMutation
  | sleepCall
deriving DecidableEq, Repr

/-- The event order of one failed-probe iteration of the wait loop, read
off the source. -/
def wait_failed_iteration : List WaitEvent :=
  [WaitEvent.lockAcquire, WaitEvent.selectExecuted, WaitEvent.commitIssued,
   WaitEvent.lockRelease, WaitEvent.backoffMutation, WaitEvent.sleepCall]

/-- Lock depth after a sequence of events (acquires minus releases). -/
def lockDepthAfter (tr : List WaitEvent) : Nat :=
  tr.foldl
    (fun d e =>
      match e with
      | WaitEvent.lockAcquire => d + 1
      | WaitEvent.lockRelease => d - 1
      | _ => d)
    0

/-- Whether the event at position `i` of a trace executes while the lock is
held (acquired earlier in the trace and not yet released). -/
def heldDuring (tr : List WaitEvent) (i : Nat) : Bool :=
  decide (0 < lockDepthAfter (tr.take i))

/-- The `synchronised` decorator as a lock-state transformer: the wrapper
acquires `self._lock`, runs the method, releases, and returns the result.
If the lock is already held the acquire blocks (`none`: the call cannot
complete while no release happens).  If the method raises, the exception
propagates out of the wrapper before `self._lock.release()` is reached, so
the lock stays held. -/
def synchronised_call {α : Type}
    (method : DBState → Except DBError α × DBState)
    (lockHeld : Bool) (db : DBState) :
    Option (Except DBError α × Bool × DBState) :=
  if lockHeld then
    none
  else
    match method db with
    | (Except.error e, db1) => some (Except.error e, true, db1)
    | (Except.ok a, db1) => some (Except.ok a, false, db1)

/-- A one-device store (the spec's scenario device `TM400059`), empty
command tables, auto-increment counter at 1. -/
def exampleDB : DBState :=
  { pods := [{ serialNumber := "TM400059", id_pod := 3 }],
    pendingCommands := [], uncommittedPending := [], nextId := 1, now := 100 }

/-- A store with no devices at all. -/
def emptyDB : DBState :=
  { pods := [], pendingCommands := [], uncommittedPending := [], nextId := 1, now := 0 }

/-- An `executedCommands` table with two rows for pending command 1 (in
store-iteration order) and one row for pending command 2. -/
def exampleExecRows : List ExecRow :=
  [{ id_pendingCommand := 1, response := "0OK" },
   { id_pendingCommand := 1, response := "1ALT" },
   { id_pendingCommand := 2, response := "2X" }]

/-! ### Backoff-state lemmas -/

lemma progress_sleep_time_sleep_mono (active_count : Nat) (s : BackoffState) :
    s.sleep_time ≤ (progress_sleep_time active_count s).sleep_time := by
  unfold progress_sleep_time
  dsimp only
  split_ifs <;> simp [SLEEP_TIME_INCREMENT]

lemma progress_sleep_time_le_max (active_count : Nat) (s : BackoffState)
    (h1 : s.sleep_time ≤ SLEEP_TIME_MAX) (h5 : s.sleep_time % 5 = 0) :
    (progress_sleep_time active_count s).sleep_time ≤ SLEEP_TIME_MAX
    ∧ (progress_sleep_time active_count s).sleep_time % 5 = 0 := by
  unfold progress_sleep_time
  dsimp only
  simp only [SLEEP_TIME_MAX, SLEEP_TIME_INCREMENT] at *
  split_ifs with hmax hpat
  · exact ⟨h1, h5⟩
  · dsimp only
    constructor <;> omega
  · exact ⟨h1, h5⟩

lemma foldl_progress_sleep_invariant (ws : List Nat) :
    ∀ s : BackoffState, s.sleep_time ≤ SLEEP_TIME_MAX → s.sleep_time % 5 = 0 →
      (ws.foldl (fun t w => progress_sleep_time w t) s).sleep_time ≤ SLEEP_TIME_MAX
      ∧ (ws.foldl (fun t w => progress_sleep_time w t) s).sleep_time % 5 = 0 := by
  induction ws with
  | nil => intro s h1 h5; exact ⟨h1, h5⟩
  | cons w ws ih =>
      intro s h1 h5
      have h := progress_sleep_time_le_max w s h1 h5
      simpa using ih (progress_sleep_time w s) h.1 h.2

lemma iterate_progress_from_zero (W s0 : Nat) (hW : 1 ≤ W)
    (hs : s0 < SLEEP_TIME_MAX) :
    ∀ k, k ≤ SLEEP_TIME_PATIENCE * W →
      (progress_sleep_time (W + 1))^[k]
          { sleep_time := s0, attempts_at_sleep_time := 0 } =
        if k < SLEEP_TIME_PATIENCE * W then
          { sleep_time := s0, attempts_at_sleep_time := k }
        else
          { sleep_time := s0 + SLEEP_TIME_INCREMENT, attempts_at_sleep_time := 0 } := by
  simp only [SLEEP_TIME_PATIENCE, SLEEP_TIME_MAX] at *
  intro k
  induction k with
  | zero =>
      intro _
      have h0 : 0 < 10 * W := by omega
      simp [h0]
  | succ k ih =>
      intro hk
      have hklt : k < 10 * W := by omega
      rw [Function.iterate_succ_apply', ih (Nat.le_of_lt hklt), if_pos hklt]
      unfold progress_sleep_time
      simp only [SLEEP_TIME_PATIENCE, SLEEP_TIME_MAX, SLEEP_TIME_INCREMENT]
      rw [if_neg (by omega), Nat.add_sub_cancel]
      by_cases hend : 10 * W ≤ k + 1
      · rw [if_pos hend, if_neg (by omega)]
      · rw [if_neg hend, if_pos (by omega)]

/-! ### Probe and wait-loop lemmas -/

lemma get_command_response_once_eq_find (rows : List ExecRow) (pid : Nat) :
    get_command_response_once rows pid
      = (rows.find? (fun r => r.id_pendingCommand == pid)).map (fun r => r.response) := by
  induction rows with
  | nil => rfl
  | cons a rows ih =>
      by_cases hb : a.id_pendingCommand = pid
      · simp [get_command_response_once, select_responses, List.filter_cons,
              List.find?_cons, hb]
      · have hb2 : (a.id_pendingCommand == pid) = false := by simp [hb]
        simp only [get_command_response_once, select_responses] at ih ⊢
        simp [List.filter_cons, List.find?_cons, hb2, ih]

lemma once_some_of_exists (rows : List ExecRow) (pid : Nat)
    (h : ∃ r, r ∈ rows ∧ r.id_pendingCommand = pid) :
    ∃ R, get_command_response_once rows pid = some R := by
  rw [get_command_response_once_eq_find]
  obtain ⟨r, hr, hid⟩ := h
  have hs : (rows.find? (fun t => t.id_pendingCommand == pid)).isSome := by
    rw [List.find?_isSome]
    exact ⟨r, hr, by simp [hid]⟩
  obtain ⟨x, hx⟩ := Option.isSome_iff_exists.mp hs
  exact ⟨x.response, by rw [hx]; rfl⟩

lemma mem_of_once_some (rows : List ExecRow) (pid : Nat) (R : String)
    (h : get_command_response_once rows pid = some R) :
    ∃ r, r ∈ rows ∧ r.id_pendingCommand = pid ∧ r.response = R := by
  rw [get_command_response_once_eq_find] at h
  cases hf : rows.find? (fun t => t.id_pendingCommand == pid) with
  | none => rw [hf] at h; simp at h
  | some x =>
      rw [hf] at h
      simp only [Option.map_some'] at h
      have hmem := List.mem_of_find?_eq_some hf
      have hpx := List.find?_some hf
      exact ⟨x, hmem, by simpa using hpx, by simpa using h⟩

lemma loop_some_probe (store : Nat → List ExecRow) (acount : Nat → Nat) (pid : Nat) :
    ∀ (fuel i : Nat) (b bf : BackoffState) (r : String) (sleeps : List Nat),
      get_command_response_from store acount pid i b fuel = some (r, bf, sleeps) →
      ∃ j, i ≤ j ∧ get_command_response_once (store j) pid = some r := by
  intro fuel
  induction fuel with
  | zero =>
      intro i b bf r sleeps h
      simp [get_command_response_from] at h
  | succ fuel ih =>
      intro i b bf r sleeps h
      unfold get_command_response_from at h
      cases h1 : get_command_response_once (store i) pid with
      | some r0 =>
          rw [h1] at h
          simp only [Option.some.injEq, Prod.mk.injEq] at h
          exact ⟨i, Nat.le_refl i, by rw [h1, h.1]⟩
      | none =>
          rw [h1] at h
          dsimp only at h
          cases h2 : get_command_response_from store acount pid (i + 1)
              (progress_sleep_time (acount i) b) fuel with
          | none => rw [h2] at h; simp at h
          | some out =>
              obtain ⟨r2, bf2, sl2⟩ := out
              rw [h2] at h
              simp only [Option.some.injEq, Prod.mk.injEq] at h
              obtain ⟨j, hij, hj⟩ := ih (i + 1) _ bf2 r2 sl2 h2
              exact ⟨j, by omega, by rw [hj, h.1]⟩

/-! ### Enqueue-sequence lemmas -/

lemma runEnqueues_ids_lower_bound (reqs : List (Nat × String)) :
    ∀ st : DBState, ∀ id ∈ (runEnqueues st reqs).1, st.nextId ≤ id := by
  induction reqs with
  | nil => intro st id h; simp [runEnqueues] at h
  | cons q reqs ih =>
      intro st id h
      obtain ⟨commandId, zephyrName⟩ := q
      simp only [runEnqueues, send_command_to_zephyr, send_command_to_zephyr_inner] at h
      cases hf : st.pods.find? (fun p => p.serialNumber == zephyrName) with
      | none =>
          rw [hf] at h
          exact ih st id h
      | some pod =>
          rw [hf] at h
          dsimp only at h
          rcases List.mem_cons.mp h with h0 | h0
          · omega
          · have := ih _ id h0
            dsimp only at this
            omega

lemma runEnqueues_ids_pairwise_lt (reqs : List (Nat × String)) :
    ∀ st : DBState, ((runEnqueues st reqs).1).Pairwise (fun a b => a < b) := by
  induction reqs with
  | nil => intro st; simp [runEnqueues]
  | cons q reqs ih =>
      intro st
      obtain ⟨commandId, zephyrName⟩ := q
      simp only [runEnqueues, send_command_to_zephyr, send_command_to_zephyr_inner]
      cases hf : st.pods.find? (fun p => p.serialNumber == zephyrName) with
      | none =>
          dsimp only
          exact ih st
      | some pod =>
          dsimp only
          refine List.Pairwise.cons ?_ (ih _)
          intro b hb
          have := runEnqueues_ids_lower_bound reqs _ b hb
          dsimp only at this
          omega

/-! ### Claim theorems -/

/-- C1: in one failed-probe iteration of `get_command_response`, the
backoff-state read-modify-write (`_progress_sleep_time`, event index 4 of
the iteration trace) executes after `self._lock.release()` — outside the
lock — while the store probe (`SELECT`, index 1) and the commit (index 2)
do execute under the lock.  This evaluates the code at the failing input
and refutes the claim that the backoff mutation runs while holding the
mutual-exclusion lock. -/
theorem backoff_mutation_runs_outside_lock :
    wait_failed_iteration[4]? = some WaitEvent.backoffMutation
    ∧ heldDuring wait_failed_iteration 4 = false
    ∧ heldDuring wait_failed_iteration 5 = false
    ∧ heldDuring wait_failed_iteration 1 = true
    ∧ heldDuring wait_failed_iteration 2 = true := by decide

/-- C2: over every sequence of `_progress_sleep_time` calls on one backoff
state starting from `__init__` (with arbitrary, even varying,
`active_count()` samples), `_sleep_time` is non-decreasing at each step and
never exceeds `SLEEP_TIME_MAX` (600); and with one live waiter
(`active_count() = 2`, so `liveWaiters = active_count() - 1 = 1`), after
exactly `SLEEP_TIME_PATIENCE` (10) failed probes the sleep time has
increased by `SLEEP_TIME_INCREMENT` (5) exactly once: it is 10 after each
of the first 9 calls and 15 after the 10th. -/
theorem backoff_monotone_bounded_single_increment :
    (∀ (active_count : Nat) (s : BackoffState),
        s.sleep_time ≤ (progress_sleep_time active_count s).sleep_time)
    ∧ (∀ ws : List Nat,
        (ws.foldl (fun t w => progress_sleep_time w t) initBackoffState).sleep_time
          ≤ SLEEP_TIME_MAX)
    ∧ ((List.range 11).map
          (fun k => ((progress_sleep_time 2)^[k] initBackoffState).sleep_time)
        = [10, 10, 10, 10, 10, 10, 10, 10, 10, 10, 15]) := by
  refine ⟨progress_sleep_time_sleep_mono, ?_, by decide⟩
  intro ws
  exact (foldl_progress_sleep_invariant ws initBackoffState (by decide) (by decide)).1

/-- C3: with `W ≥ 1` live waiters (`active_count() = W + 1`), starting from
a backoff state whose attempt counter is 0 and whose sleep time is below
`SLEEP_TIME_MAX`, the sleep time is unchanged by each of the first
`SLEEP_TIME_PATIENCE * W - 1` failed probes and has increased by
`SLEEP_TIME_INCREMENT` after exactly `SLEEP_TIME_PATIENCE * W = 10 * W`
failed probes (attempt counter reset to 0); doubling `W` doubles the
probes-to-increment. -/
theorem probes_to_increment_scales_with_waiters (W : Nat) (hW : 1 ≤ W)
    (s0 : Nat) (hs : s0 < SLEEP_TIME_MAX) :
    (∀ k, k < SLEEP_TIME_PATIENCE * W →
        ((progress_sleep_time (W + 1))^[k]
            { sleep_time := s0, attempts_at_sleep_time := 0 }).sleep_time = s0)
    ∧ ((progress_sleep_time (W + 1))^[SLEEP_TIME_PATIENCE * W]
          { sleep_time := s0, attempts_at_sleep_time := 0 })
        = { sleep_time := s0 + SLEEP_TIME_INCREMENT, attempts_at_sleep_time := 0 }
    ∧ SLEEP_TIME_PATIENCE * (2 * W) = 2 * (SLEEP_TIME_PATIENCE * W) := by
  refine ⟨?_, ?_, by ring⟩
  · intro k hk
    rw [iterate_progress_from_zero W s0 hW hs k (Nat.le_of_lt hk), if_pos hk]
  · rw [iterate_progress_from_zero W s0 hW hs _ (Nat.le_refl _),
        if_neg (Nat.lt_irrefl _)]

/-- Witness for C3 at `W = 1`, initial sleep time 10: the 10th probe
triggers the single increment to 15, and after 3 probes nothing changed. -/
theorem probes_to_increment_scales_with_waiters_witness :
    ((progress_sleep_time 2)^[SLEEP_TIME_PATIENCE * 1]
        { sleep_time := 10, attempts_at_sleep_time := 0 })
      = { sleep_time := 10 + SLEEP_TIME_INCREMENT, attempts_at_sleep_time := 0 }
    ∧ ((progress_sleep_time 2)^[3]
          { sleep_time := 10, attempts_at_sleep_time := 0 }).sleep_time = 10 :=
  ⟨(probes_to_increment_scales_with_waiters 1 (by decide) 10 (by decide)).2.1,
   (probes_to_increment_scales_with_waiters 1 (by decide) 10 (by decide)).1 3 (by decide)⟩

/-- C4: a probe of `get_command_response` returns `R` exactly when `R` is
the response of the first `executedCommands` row (store-iteration order)
whose `id_pendingCommand` matches the requested id: any returned response
belongs to a matching row, an existing matching row guarantees a response
is returned, the returned response is the first matching row's, and the
blocking wait loop only ever returns a response that a successful probe
found in the store contents of that probe's moment. -/
theorem get_command_response_correlation (rows : List ExecRow) (pid : Nat) :
    (∀ R, get_command_response_once rows pid = some R →
        ∃ r, r ∈ rows ∧ r.id_pendingCommand = pid ∧ r.response = R)
    ∧ ((∃ r, r ∈ rows ∧ r.id_pendingCommand = pid) →
        ∃ R, get_command_response_once rows pid = some R)
    ∧ get_command_response_once rows pid
        = (rows.find? (fun r => r.id_pendingCommand == pid)).map (fun r => r.response)
    ∧ (∀ (store : Nat → List ExecRow) (acount : Nat → Nat) (fuel i : Nat)
          (b bf : BackoffState) (r : String) (sleeps : List Nat),
        get_command_response_from store acount pid i b fuel = some (r, bf, sleeps) →
        ∃ j, i ≤ j
          ∧ get_command_response_once (store j) pid = some r
          ∧ ∃ t, t ∈ store j ∧ t.id_pendingCommand = pid ∧ t.response = r) := by
  refine ⟨mem_of_once_some rows pid, once_some_of_exists rows pid,
          get_command_response_once_eq_find rows pid, ?_⟩
  intro store acount fuel i b bf r sleeps h
  obtain ⟨j, hij, hj⟩ := loop_some_probe store acount pid fuel i b bf r sleeps h
  exact ⟨j, hij, hj, mem_of_once_some _ pid r hj⟩

/-- Witness for C4: on a store holding two rows for pending command 1, the
probe returns the first row's response `"0OK"`, which indeed belongs to a
matching row. -/
theorem get_command_response_correlation_witness :
    ∃ r, r ∈ exampleExecRows ∧ r.id_pendingCommand = 1 ∧ r.response = "0OK" :=
  (get_command_response_correlation exampleExecRows 1).1 "0OK" (by decide)

/-- C5: for every (lock-serialised) sequence of enqueue calls through
`send_command_to_zephyr`, the pending-command ids handed back to the
callers are pairwise distinct — each returned id was assigned by exactly
one call, fresh from the store's auto-increment counter. -/
theorem enqueue_ids_pairwise_distinct (st : DBState) (reqs : List (Nat × String)) :
    ((runEnqueues st reqs).1).Pairwise (fun a b => a ≠ b) :=
  List.Pairwise.imp (fun h => Nat.ne_of_lt h) (runEnqueues_ids_pairwise_lt reqs st)

/-- C6 counterexample: on the one-device store, `set_ports` succeeds, its
enqueue assigns pending-command id 1 (the id of the row it inserts), yet
the call returns `None` (`none`) — not the newly assigned id — refuting
"returns the newly assigned pendingCommandId". -/
theorem set_ports_does_not_return_id :
    (set_ports exampleDB "TM400059").1
      = Except.ok (none,
          [{ level := LogLevel.debug,
             msg := LogMsg.queuedCommand COMMAND_ID_SET_NEW_PORTS "TM400059" },
           { level := LogLevel.info, msg := LogMsg.sentSetPorts }])
    ∧ (set_ports exampleDB "TM400059").2.pendingCommands.map (fun r => r.id) = [1]
    ∧ (none : Option Nat) ≠ some 1 :=
  ⟨rfl, rfl, by decide⟩

/-- C6 (amended): for every store in which the target device resolves,
`set_ports` enqueues the baked-in `COMMAND_ID_SET_NEW_PORTS` command with
exactly the store effect of `send_command_to_zephyr`, and on success emits
the enqueue debug trace followed by an informational trace — but it
returns `None` rather than the newly assigned pendingCommandId. -/
theorem set_ports_contract (st : DBState) (zephyrName : String)
    (h : (st.pods.find? (fun p => p.serialNumber == zephyrName)).isSome) :
    (set_ports st zephyrName).2
      = (send_command_to_zephyr st COMMAND_ID_SET_NEW_PORTS zephyrName).2
    ∧ (set_ports st zephyrName).1
      = Except.ok (none,
          [{ level := LogLevel.debug,
             msg := LogMsg.queuedCommand COMMAND_ID_SET_NEW_PORTS zephyrName },
           { level := LogLevel.info, msg := LogMsg.sentSetPorts }]) := by
  obtain ⟨pod, hpod⟩ := Option.isSome_iff_exists.mp h
  unfold set_ports send_command_to_zephyr send_command_to_zephyr_inner
  rw [hpod]
  exact ⟨rfl, rfl⟩

/-- Witness for C6 (amended) on the one-device store. -/
theorem set_ports_contract_witness :
    (set_ports exampleDB "TM400059").2
      = (send_command_to_zephyr exampleDB COMMAND_ID_SET_NEW_PORTS "TM400059").2 :=
  (set_ports_contract exampleDB "TM400059" (by decide)).1

/-- C7: when the device serial resolves through the lookup join on
`pod.serialNumber` and the connection holds no stray uncommitted rows, a
successful `_send_command_to_zephyr` inserts exactly one `pendingCommands`
row — status 0 (pending), repetition 0, `insertionDateTime` the current
store time, `id_pod` from the join, id the fresh auto-increment value —
and that row is committed before the call returns (it sits in the
committed table of the returned state, whose uncommitted list is empty);
the call returns the newly assigned row id. -/
theorem enqueue_inserts_committed_row (st : DBState) (commandId : Nat)
    (zephyrName : String) (pod : Pod)
    (hfind : st.pods.find? (fun p => p.serialNumber == zephyrName) = some pod)
    (hq : st.uncommittedPending = []) :
    send_command_to_zephyr_inner st commandId zephyrName
      = (Except.ok (st.nextId,
            [{ level := LogLevel.debug,
               msg := LogMsg.queuedCommand commandId zephyrName }]),
         { pods := st.pods,
           pendingCommands := st.pendingCommands ++
             [{ id := st.nextId, status := 0, id_pod := pod.id_pod,
                id_libraryCommand := commandId, insertionDateTime := st.now,
                repetition := 0 }],
           uncommittedPending := [],
           nextId := st.nextId + 1,
           now := st.now }) := by
  unfold send_command_to_zephyr_inner
  rw [hfind, hq]
  rfl

/-- Witness for C7 on the one-device store: the call returns id 1 and the
returned state holds the single committed pending row. -/
theorem enqueue_inserts_committed_row_witness :
    send_command_to_zephyr_inner exampleDB 7 "TM400059"
      = (Except.ok (1, [{ level := LogLevel.debug,
                          msg := LogMsg.queuedCommand 7 "TM400059" }]),
         { pods := exampleDB.pods,
           pendingCommands := [{ id := 1, status := 0, id_pod := 3,
                                 id_libraryCommand := 7,
                                 insertionDateTime := 100, repetition := 0 }],
           uncommittedPending := [], nextId := 2, now := 100 }) :=
  enqueue_inserts_committed_row exampleDB 7 "TM400059"
    { serialNumber := "TM400059", id_pod := 3 } (by decide) rfl

/-- C8: if a matching `executedCommands` row already exists at the moment
`get_command_response` is called, the call returns on the very first probe
— with an empty list of performed sleeps and the backoff state returned
exactly as it was — and the returned response is the one the first probe
finds (the first matching row in store order). -/
theorem existing_response_returned_without_sleep (store : Nat → List ExecRow)
    (acount : Nat → Nat) (pid : Nat) (b : BackoffState) (fuel : Nat)
    (h : ∃ r, r ∈ store 0 ∧ r.id_pendingCommand = pid) :
    ∃ R, get_command_response_from store acount pid 0 b (fuel + 1)
          = some (R, b, [])
      ∧ get_command_response_once (store 0) pid = some R := by
  obtain ⟨R, hR⟩ := once_some_of_exists (store 0) pid h
  refine ⟨R, ?_, hR⟩
  unfold get_command_response_from
  rw [hR]

/-- Witness for C8: with the response rows already in the store, the wait
returns immediately, sleeping zero times, backoff state untouched. -/
theorem existing_response_returned_without_sleep_witness :
    ∃ R, get_command_response_from (fun _ => exampleExecRows) (fun _ => 2) 1 0
            initBackoffState 1 = some (R, initBackoffState, [])
      ∧ get_command_response_once exampleExecRows 1 = some R :=
  existing_response_returned_without_sleep (fun _ => exampleExecRows) (fun _ => 2)
    1 initBackoffState 0
    ⟨{ id_pendingCommand := 1, response := "0OK" }, by decide, rfl⟩

/-- C9: when no `pod` row matches the device serial, the enqueue fails with
the device-not-found store constraint error and returns the store state
unchanged — no pending-command row (committed or uncommitted) is inserted
and the auto-increment counter does not advance; the function has no retry
path, so the error propagates immediately to the caller. -/
theorem enqueue_unknown_device_fails_cleanly (st : DBState) (commandId : Nat)
    (zephyrName : String)
    (h : st.pods.find? (fun p => p.serialNumber == zephyrName) = none) :
    send_command_to_zephyr_inner st commandId zephyrName
      = (Except.error DBError.deviceNotFound, st) := by
  unfold send_command_to_zephyr_inner
  rw [h]

/-- Witness for C9 on the device-less store. -/
theorem enqueue_unknown_device_fails_cleanly_witness :
    send_command_to_zephyr_inner emptyDB 7 "TM400059"
      = (Except.error DBError.deviceNotFound, emptyDB) :=
  enqueue_unknown_device_fails_cleanly emptyDB 7 "TM400059" rfl

/-- C10: if the method wrapped by the `synchronised` decorator raises, the
wrapper has acquired `self._lock` but its `release` line is never reached:
the call propagates the error with the lock left held, and from that lock
state every subsequent `synchronised` operation, by any caller, blocks
forever (its acquire can never complete, as no release will ever happen). -/
theorem synchronised_leaks_lock_on_error {α : Type}
    (method : DBState → Except DBError α × DBState) (db : DBState) (e : DBError)
    (h : (method db).1 = Except.error e) :
    synchronised_call method false db
      = some (Except.error e, true, (method db).2)
    ∧ (∀ (β : Type) (m2 : DBState → Except DBError β × DBState) (db2 : DBState),
        synchronised_call m2 true db2 = none) := by
  refine ⟨?_, fun β m2 db2 => rfl⟩
  unfold synchronised_call
  cases hme : method db with
  | mk r db1 =>
      rw [hme] at h
      dsimp only at h
      cases r with
      | error e2 =>
          injection h with h2
          subst h2
          rfl
      | ok a => exact Except.noConfusion h

/-- Witness for C10: the enqueue body raising device-not-found on a
device-less store leaves the lock held, and a subsequent synchronised call
on that lock state blocks. -/
theorem synchronised_leaks_lock_on_error_witness :
    synchronised_call (fun db => send_command_to_zephyr_inner db 7 "TM400059")
        false emptyDB
      = some (Except.error DBError.deviceNotFound, true,
              (send_command_to_zephyr_inner emptyDB 7 "TM400059").2)
    ∧ synchronised_call (fun db => send_command_to_zephyr_inner db 7 "TM400059")
        true emptyDB
      = none := by
  have h := synchronised_leaks_lock_on_error
      (fun db => send_command_to_zephyr_inner db 7 "TM400059") emptyDB
      DBError.deviceNotFound rfl
  exact ⟨h.1, h.2 (Nat × List LogEvent)
      (fun db => send_command_to_zephyr_inner db 7 "TM400059") emptyDB⟩
